import Mathlib

/-!
Verification development for the TESPy heat-exchanger exergy/exergoeconomic
engine (`tespy/components/heat_exchangers/base.py`) and the exergy analysis
driver (`tespy/tools/analyses.py`).

Real-valued program quantities that never pass through a transcendental
function are embedded as rationals (`ℚ`) so that every definition is
executable; the log-mean temperature difference, which uses the natural
logarithm, is embedded over `ℝ` with `Real.log`.  A Python `NaN` marking an
undefined quantity is embedded as `Option.none`.
-/

namespace Tespy

/-- A connection (flow state) as read by `HeatExchanger.exergy_balance`:
temperature in SI units and the exergy decomposition fields. -/
structure Conn where
  T : ℚ
  Ex_therm : ℚ
  Ex_mech : ℚ
  Ex_chemical : ℚ
  Ex_physical : ℚ
deriving DecidableEq

/-- The four terminals of a two-stream heat exchanger: `inl[0], inl[1]`
(hot/cold inlet) and `outl[0], outl[1]` (hot/cold outlet). -/
structure HeatExchangerState where
  in1 : Conn
  in2 : Conn
  out1 : Conn
  out2 : Conn
deriving DecidableEq

/-- Result fields written by `HeatExchanger.exergy_balance`.  `E_P = none`
embeds the Python `E_P = np.nan` of the dissipative case. -/
structure ExergyBalanceResult where
  E_P : Option ℚ
  E_F : ℚ
  E_D : ℚ
  dissipative : Bool
  epsilon : Option ℚ
deriving DecidableEq

/-- Modelled from the spec: `Component._calc_epsilon` lives in
`tespy/components/component.py`, which is not part of the sources; the spec
states `epsilon = E_P/E_F`, undefined when `E_P` is undefined (NaN). -/
def calc_epsilon (eP : Option ℚ) (eF : ℚ) : Option ℚ :=
  eP.map (fun p => p / eF)

/-- The tail of `exergy_balance` (base.py lines 1035-1040): derive `E_D`
from `E_F`/`E_P` (`E_D = E_F` when `E_P` is NaN) and set `epsilon`. -/
def finalizeBalance (eP : Option ℚ) (eF : ℚ) (d : Bool) : ExergyBalanceResult :=
  { E_P := eP
    E_F := eF
    E_D := match eP with
      | none => eF
      | some p => eF - p
    dissipative := d
    epsilon := calc_epsilon eP eF }

/-- `HeatExchanger.exergy_balance` (base.py lines 1006-1040): the six-way
case ladder on the four terminal temperatures versus ambient `T0`. -/
def exergy_balance (hx : HeatExchangerState) (T0 : ℚ) : ExergyBalanceResult :=
  if hx.in1.T > T0 ∧ hx.in2.T > T0 ∧ hx.out1.T > T0 ∧ hx.out2.T > T0 then
    finalizeBalance
      (some (hx.out2.Ex_therm - hx.in2.Ex_therm))
      (hx.in1.Ex_physical - hx.out1.Ex_physical +
        (hx.in2.Ex_mech - hx.out2.Ex_mech))
      false
  else if hx.in1.T ≤ T0 ∧ hx.in2.T ≤ T0 ∧ hx.out1.T ≤ T0 ∧ hx.out2.T ≤ T0 then
    finalizeBalance
      (some (hx.out1.Ex_therm - hx.in1.Ex_therm))
      (hx.in2.Ex_physical - hx.out2.Ex_physical +
        (hx.in1.Ex_mech - hx.out1.Ex_mech))
      false
  else if hx.in1.T > T0 ∧ hx.out2.T > T0 ∧ hx.out1.T ≤ T0 ∧ hx.in2.T ≤ T0 then
    finalizeBalance
      (some (hx.out1.Ex_therm + hx.out2.Ex_therm))
      (hx.in1.Ex_physical + hx.in2.Ex_physical -
        (hx.out1.Ex_mech + hx.out2.Ex_mech))
      false
  else if hx.in1.T > T0 ∧ hx.in2.T ≤ T0 ∧ hx.out1.T ≤ T0 ∧ hx.out2.T ≤ T0 then
    finalizeBalance
      (some hx.out1.Ex_therm)
      (hx.in1.Ex_physical + hx.in2.Ex_physical -
        (hx.out2.Ex_physical + hx.out1.Ex_mech))
      false
  else if hx.in1.T > T0 ∧ hx.out1.T > T0 ∧ hx.in2.T ≤ T0 ∧ hx.out2.T ≤ T0 then
    finalizeBalance
      none
      (hx.in1.Ex_physical - hx.out1.Ex_physical +
        (hx.in2.Ex_physical - hx.out2.Ex_physical))
      true
  else
    finalizeBalance
      (some hx.out2.Ex_therm)
      (hx.in1.Ex_physical - hx.out1.Ex_physical +
        (hx.in2.Ex_physical - hx.out2.Ex_mech))
      false

/-! ### Log-mean temperature difference (base.py lines 377-406), over `ℝ` -/

/-- The four terminal temperatures after the safeguard block of
`calculate_td_log`. -/
structure AdjTemps where
  T_i1 : ℝ
  T_i2 : ℝ
  T_o1 : ℝ
  T_o2 : ℝ

/-- First safeguard (base.py lines 389-390):
`if T_i1 <= T_o2: T_i1 = T_o2 + 0.01`. -/
noncomputable def adjust1 (t : AdjTemps) : AdjTemps :=
  if t.T_i1 ≤ t.T_o2 then { t with T_i1 := t.T_o2 + 0.01 } else t

/-- Second safeguard (base.py lines 391-392), reading the updated `T_i1`:
`if T_i1 <= T_o2: T_o2 = T_i1 - 0.01`. -/
noncomputable def adjust2 (t : AdjTemps) : AdjTemps :=
  if t.T_i1 ≤ t.T_o2 then { t with T_o2 := t.T_i1 - 0.01 } else t

/-- Third safeguard (base.py lines 393-394):
`if T_i1 <= T_o2: T_o1 = T_i2 + 0.02`. -/
noncomputable def adjust3 (t : AdjTemps) : AdjTemps :=
  if t.T_i1 ≤ t.T_o2 then { t with T_o1 := t.T_i2 + 0.02 } else t

/-- Fourth safeguard (base.py lines 395-396):
`if T_o1 <= T_i2: T_i2 = T_o1 - 0.02`. -/
noncomputable def adjust4 (t : AdjTemps) : AdjTemps :=
  if t.T_o1 ≤ t.T_i2 then { t with T_i2 := t.T_o1 - 0.02 } else t

/-- The safeguard block of `calculate_td_log` (base.py lines 389-396): the
four sequential conditional reassignments, each later test reading the
earlier updates. -/
noncomputable def adjustTemps (T_i1 T_i2 T_o1 T_o2 : ℝ) : AdjTemps :=
  adjust4 (adjust3 (adjust2 (adjust1 ⟨T_i1, T_i2, T_o1, T_o2⟩)))

/-- Upper terminal temperature difference `ttd_u = T_i1 - T_o2`
(base.py line 398). -/
def ttd_u (t : AdjTemps) : ℝ := t.T_i1 - t.T_o2

/-- Lower terminal temperature difference `ttd_l = T_o1 - T_i2`
(base.py line 399). -/
def ttd_l (t : AdjTemps) : ℝ := t.T_o1 - t.T_i2

/-- `HeatExchanger.calculate_td_log` (base.py lines 377-406). -/
noncomputable def calculate_td_log (T_i1 T_i2 T_o1 T_o2 : ℝ) : ℝ :=
  let t := adjustTemps T_i1 T_i2 T_o1 T_o2
  if ttd_u t = ttd_l t then ttd_l t
  else (ttd_l t - ttd_u t) / Real.log (ttd_l t / ttd_u t)

/-- `HeatExchanger.kA_char_func` (base.py lines 477-516).  The two
characteristic-curve evaluations are external collaborators
(`evaluate(x) -> y`), passed in as the values `fkA1` and `fkA2`. -/
noncomputable def kA_char_func
    (m h_in1 h_out1 kA_design fkA1 fkA2 T_i1 T_i2 T_o1 T_o2 : ℝ) : ℝ :=
  let fkA := 2 / (1 / fkA1 + 1 / fkA2)
  let td_log := calculate_td_log T_i1 T_i2 T_o1 T_o2
  m * (h_out1 - h_in1) + kA_design * fkA * td_log

/-! ### Cost-allocation auxiliary equations (`dissipative_balance`) -/

/-- Cost-side view of a connection: exergy decomposition values and the
column indices (`Ex_C_col`) of its thermal/mechanical/chemical cost
unknowns. -/
structure CostConn where
  Ex_therm : ℚ
  Ex_mech : ℚ
  Ex_chemical : ℚ
  colTherm : ℕ
  colMech : ℕ
  colChem : ℕ
deriving DecidableEq

/-- A serving component: only its cost-balance row index
(`exergy_cost_line`) matters to `dissipative_balance`. -/
structure ServingComp where
  exergy_cost_line : ℕ
deriving DecidableEq

/-- The dissipative heat exchanger as seen by `dissipative_balance`. -/
structure CostHX where
  in1 : CostConn
  in2 : CostConn
  out1 : CostConn
  out2 : CostConn
  Z_col : ℕ
  Z_costs : ℚ
  serving_components : List ServingComp

/-- The exergoeconomic cost matrix, addressed by (row, column). -/
def CostMatrix : Type := ℕ → ℕ → ℚ

/-- The exergoeconomic right-hand-side vector. -/
def CostVector : Type := ℕ → ℚ

/-- Write a single matrix entry (`exergy_cost_matrix[r, c] = v`). -/
def mset (M : CostMatrix) (r c : ℕ) (v : ℚ) : CostMatrix :=
  fun r2 c2 => if r2 = r ∧ c2 = c then v else M r2 c2

/-- Increment a single matrix entry (`exergy_cost_matrix[r, c] += v`). -/
def madd (M : CostMatrix) (r c : ℕ) (v : ℚ) : CostMatrix :=
  mset M r c (M r c + v)

/-- Write a single vector entry (`exergy_cost_vector[r] = v`). -/
def vset (V : CostVector) (r : ℕ) (v : ℚ) : CostVector :=
  fun r2 => if r2 = r then v else V r2

/-- Row `counter+0` of `dissipative_balance` (base.py lines 1082-1091):
specific thermal cost equality on stream 1.  The second component flags
whether an executed division had a zero denominator. -/
def dbTherm1 (hx : CostHX) (counter : ℕ) (M : CostMatrix) : CostMatrix × Bool :=
  if hx.in1.Ex_therm ≠ 0 ∧ hx.out1.Ex_therm ≠ 0 then
    (mset (mset M (counter+0) hx.in1.colTherm (1 / hx.in1.Ex_therm))
      (counter+0) hx.out1.colTherm (-1 / hx.out1.Ex_therm),
     decide (hx.in1.Ex_therm = 0) || decide (hx.out1.Ex_therm = 0))
  else if hx.in1.Ex_therm = 0 ∧ hx.out1.Ex_therm ≠ 0 then
    (mset M (counter+0) hx.in1.colTherm 1, false)
  else if hx.in1.Ex_therm ≠ 0 ∧ hx.out1.Ex_therm = 0 then
    (mset M (counter+0) hx.out1.colTherm 1, false)
  else
    (mset (mset M (counter+0) hx.in1.colTherm 1)
      (counter+0) hx.out1.colTherm (-1), false)

/-- Row `counter+1` of `dissipative_balance` (base.py lines 1093-1102):
the guard tests stream 2's thermal exergies but the coefficients divide by
stream 1's (`1 / self.inl[0].Ex_therm`, `-1 / self.outl[0].Ex_therm`),
exactly as in the source. -/
def dbTherm2 (hx : CostHX) (counter : ℕ) (M : CostMatrix) : CostMatrix × Bool :=
  if hx.in2.Ex_therm ≠ 0 ∧ hx.out2.Ex_therm ≠ 0 then
    (mset (mset M (counter+1) hx.in2.colTherm (1 / hx.in1.Ex_therm))
      (counter+1) hx.out2.colTherm (-1 / hx.out1.Ex_therm),
     decide (hx.in1.Ex_therm = 0) || decide (hx.out1.Ex_therm = 0))
  else if hx.in2.Ex_therm = 0 ∧ hx.out2.Ex_therm ≠ 0 then
    (mset M (counter+1) hx.in2.colTherm 1, false)
  else if hx.in2.Ex_therm ≠ 0 ∧ hx.out2.Ex_therm = 0 then
    (mset M (counter+1) hx.out2.colTherm 1, false)
  else
    (mset (mset M (counter+1) hx.in2.colTherm 1)
      (counter+1) hx.out2.colTherm (-1), false)

/-- Row `counter+2` of `dissipative_balance` (base.py lines 1104-1113):
mechanical cost equality on stream 1 (the final branch writes `+1` on both
columns, as the source does). -/
def dbMech1 (hx : CostHX) (counter : ℕ) (M : CostMatrix) : CostMatrix × Bool :=
  if hx.in1.Ex_mech ≠ 0 ∧ hx.out1.Ex_mech ≠ 0 then
    (mset (mset M (counter+2) hx.in1.colMech (1 / hx.in1.Ex_mech))
      (counter+2) hx.out1.colMech (-1 / hx.out1.Ex_mech),
     decide (hx.in1.Ex_mech = 0) || decide (hx.out1.Ex_mech = 0))
  else if hx.in1.Ex_mech = 0 ∧ hx.out1.Ex_mech ≠ 0 then
    (mset M (counter+2) hx.in1.colMech 1, false)
  else if hx.in1.Ex_mech ≠ 0 ∧ hx.out1.Ex_mech = 0 then
    (mset M (counter+2) hx.out1.colMech 1, false)
  else
    (mset (mset M (counter+2) hx.in1.colMech 1)
      (counter+2) hx.out1.colMech 1, false)

/-- Row `counter+3` of `dissipative_balance` (base.py lines 1115-1124): the
guard tests `self.outl[1].Ex_mech` twice (never `self.inl[1]`), while the
first coefficient divides by `self.inl[1].Ex_mech`, exactly as in the
source; the two middle branches are contradictory and hence dead. -/
def dbMech2 (hx : CostHX) (counter : ℕ) (M : CostMatrix) : CostMatrix × Bool :=
  if hx.out2.Ex_mech ≠ 0 ∧ hx.out2.Ex_mech ≠ 0 then
    (mset (mset M (counter+3) hx.in2.colMech (1 / hx.in2.Ex_mech))
      (counter+3) hx.out2.colMech (-1 / hx.out2.Ex_mech),
     decide (hx.in2.Ex_mech = 0) || decide (hx.out2.Ex_mech = 0))
  else if hx.out2.Ex_mech = 0 ∧ hx.out2.Ex_mech ≠ 0 then
    (mset M (counter+3) hx.in2.colMech 1, false)
  else if hx.out2.Ex_mech ≠ 0 ∧ hx.out2.Ex_mech = 0 then
    (mset M (counter+3) hx.out2.colMech 1, false)
  else
    (mset (mset M (counter+3) hx.in2.colMech 1)
      (counter+3) hx.out2.colMech (-1), false)

/-- Row `counter+4` of `dissipative_balance` (base.py lines 1127-1128):
chemical cost equality on stream 1; the conditional expressions guard their
own denominators. -/
def dbChem1 (hx : CostHX) (counter : ℕ) (M : CostMatrix) : CostMatrix × Bool :=
  (mset (mset M (counter+4) hx.in1.colChem
      (if hx.in1.Ex_chemical ≠ 0 then 1 / hx.in1.Ex_chemical else 1))
    (counter+4) hx.out1.colChem
      (if hx.out1.Ex_chemical ≠ 0 then -1 / hx.out1.Ex_chemical else -1),
   false)

/-- Row `counter+5` of `dissipative_balance` (base.py lines 1130-1131): the
first coefficient divides by `self.inl[1].Ex_chemical` but its guard tests
`self.outl[1].Ex_chemical`, exactly as in the source. -/
def dbChem2 (hx : CostHX) (counter : ℕ) (M : CostMatrix) : CostMatrix × Bool :=
  (mset (mset M (counter+5) hx.in2.colChem
      (if hx.out2.Ex_chemical ≠ 0 then 1 / hx.in2.Ex_chemical else 1))
    (counter+5) hx.out2.colChem
      (if hx.out2.Ex_chemical ≠ 0 then -1 / hx.out2.Ex_chemical else -1),
   decide (hx.out2.Ex_chemical ≠ 0 ∧ hx.in2.Ex_chemical = 0))

/-- One iteration of the serving-components loop (base.py lines 1139-1153):
add `±1/len(serving_components)` on the dissipative component's inlet and
outlet thermal, mechanical and chemical cost columns of the serving
component's cost row, then set the `Z` column to `1/len`. -/
def servingStep (hx : CostHX) (n : ℕ) (M : CostMatrix) (comp : ServingComp) :
    CostMatrix :=
  let r := comp.exergy_cost_line
  mset (madd (madd (madd (madd (madd (madd (madd (madd (madd (madd (madd (madd
    M r hx.in1.colTherm (1 / (n : ℚ))) r hx.in2.colTherm (1 / (n : ℚ)))
    r hx.out1.colTherm (-1 / (n : ℚ))) r hx.out2.colTherm (-1 / (n : ℚ)))
    r hx.in1.colMech (1 / (n : ℚ))) r hx.in2.colMech (1 / (n : ℚ)))
    r hx.out1.colMech (-1 / (n : ℚ))) r hx.out2.colMech (-1 / (n : ℚ)))
    r hx.in1.colChem (1 / (n : ℚ))) r hx.in2.colChem (1 / (n : ℚ)))
    r hx.out1.colChem (-1 / (n : ℚ))) r hx.out2.colChem (-1 / (n : ℚ)))
    r hx.Z_col (1 / (n : ℚ))

/-- The serving-components loop of `dissipative_balance`. -/
def servingLoop (hx : CostHX) (n : ℕ) :
    List ServingComp → CostMatrix → CostMatrix
  | [], M => M
  | c :: cs, M => servingLoop hx n cs (servingStep hx n M c)

/-- The twelve inlet/outlet cost columns touched by the serving-components
loop, in source order (therm, mech, chem; inlets then outlets per group). -/
def dissCols (hx : CostHX) : List ℕ :=
  [hx.in1.colTherm, hx.in2.colTherm, hx.out1.colTherm, hx.out2.colTherm,
   hx.in1.colMech, hx.in2.colMech, hx.out1.colMech, hx.out2.colMech,
   hx.in1.colChem, hx.in2.colChem, hx.out1.colChem, hx.out2.colChem]

/-- The (column, increment) pairs one serving-loop iteration adds to the
serving component's cost row: `+1/n` on the dissipative component's inlet
columns, `-1/n` on its outlet columns (base.py lines 1141-1152). -/
def writeCols (hx : CostHX) (n : ℕ) : List (ℕ × ℚ) :=
  [(hx.in1.colTherm, 1 / (n : ℚ)), (hx.in2.colTherm, 1 / (n : ℚ)),
   (hx.out1.colTherm, -1 / (n : ℚ)), (hx.out2.colTherm, -1 / (n : ℚ)),
   (hx.in1.colMech, 1 / (n : ℚ)), (hx.in2.colMech, 1 / (n : ℚ)),
   (hx.out1.colMech, -1 / (n : ℚ)), (hx.out2.colMech, -1 / (n : ℚ)),
   (hx.in1.colChem, 1 / (n : ℚ)), (hx.in2.colChem, 1 / (n : ℚ)),
   (hx.out1.colChem, -1 / (n : ℚ)), (hx.out2.colChem, -1 / (n : ℚ))]

/-- Apply a list of `+=` writes to one row, head first. -/
def applyAdds (r : ℕ) : List (ℕ × ℚ) → CostMatrix → CostMatrix
  | [], M => M
  | (c, v) :: ws, M => applyAdds r ws (madd M r c v)

/-- Return value of `dissipative_balance`, instrumented with a flag that
records whether any executed coefficient division had a zero denominator
(in Python such a division raises `ZeroDivisionError`). -/
structure DissBalResult where
  M : CostMatrix
  V : CostVector
  counter : ℕ
  divByZero : Bool

/-- `HeatExchanger.dissipative_balance` (base.py lines 1079-1158): six
working-fluid rows, the zero right-hand sides, the serving-components loop,
and the final `Z`-cost row `counter+6`. -/
def dissipative_balance (hx : CostHX) (M0 : CostMatrix) (V0 : CostVector)
    (counter : ℕ) : DissBalResult :=
  let r1 := dbTherm1 hx counter M0
  let r2 := dbTherm2 hx counter r1.1
  let r3 := dbMech1 hx counter r2.1
  let r4 := dbMech2 hx counter r3.1
  let r5 := dbChem1 hx counter r4.1
  let r6 := dbChem2 hx counter r5.1
  let V1 := vset (vset (vset (vset (vset (vset V0
    (counter+0) 0) (counter+1) 0) (counter+2) 0)
    (counter+3) 0) (counter+4) 0) (counter+5) 0
  let n := hx.serving_components.length
  let M7 := servingLoop hx n hx.serving_components r6.1
  let M8 := mset M7 (counter+6) hx.Z_col 1
  let V2 := vset V1 (counter+6) hx.Z_costs
  { M := M8
    V := V2
    counter := counter + 7
    divByZero := r1.2 || r2.2 || r3.2 || r4.2 || r5.2 || r6.2 }

/-! ### Exergy analysis driver (`tespy/tools/analyses.py`) -/

/-- `ExergyAnalysis.evaluate_busses` bus-membership loop
(analyses.py lines 397-443), keeping only what decides the error: busses are
sets of component identifiers, and the loop raises on finding the component
on a second bus.  On success it returns the membership count. -/
def evaluate_busses_loop (cp : ℕ) : List (List ℕ) → ℕ → Except String ℕ
  | [], n => Except.ok n
  | b :: bs, n =>
    if cp ∈ b then
      if 0 < n then
        Except.error "component on multiple busses in the exergy analysis"
      else evaluate_busses_loop cp bs (n + 1)
    else evaluate_busses_loop cp bs n

/-- `ExergyAnalysis.evaluate_busses` iterates over
`self.E_F + self.E_P + self.internal_busses + self.E_L`
(analyses.py line 399). -/
def evaluate_busses (E_F E_P internal_busses E_L : List (List ℕ)) (cp : ℕ) :
    Except String ℕ :=
  evaluate_busses_loop cp (E_F ++ E_P ++ internal_busses ++ E_L) 0

/-- Whether a modelled call raised (`Except.error` embeds a raised
`TESPyNetworkError`). -/
def raisesError (r : Except String ℕ) : Bool :=
  match r with
  | Except.error _ => true
  | Except.ok _ => false

/-- `err` from `tespy/tools/global_vars.py` line 12. -/
def err : ℚ := 1 / 1000000

/-- The closure threshold `err ** 0.5` of analyses.py line 386. -/
def sqrt_err : ℚ := 1 / 1000

/-- Outcome of the closure check at the end of `ExergyAnalysis.analyse`:
the network totals are kept and a diagnostic message may be logged. -/
structure ClosureCheckResult where
  E_F : ℚ
  E_P : ℚ
  E_D : ℚ
  E_L : ℚ
  warning : Bool
deriving DecidableEq

/-- The closure residual `|E_F - E_P - E_D - E_L|`
(analyses.py lines 382-384). -/
def closure_residual (eF eP eD eL : ℚ) : ℚ := |eF - eP - eD - eL|

/-- The tail of `ExergyAnalysis.analyse` (analyses.py lines 382-395): log a
diagnostic message when the residual reaches `err ** 0.5`; the network data
is returned unchanged either way and no exception is raised. -/
def analyse_closure (eF eP eD eL : ℚ) : ClosureCheckResult :=
  { E_F := eF
    E_P := eP
    E_D := eD
    E_L := eL
    warning := decide (closure_residual eF eP eD eL ≥ sqrt_err) }

end Tespy

namespace Tespy

/-- Claim C1: for a heat exchanger whose four terminal temperatures are all
strictly above ambient `T0`, `exergy_balance` assigns
`E_P = Ex_therm(out2) - Ex_therm(in2)` and
`E_F = (Ex_physical(in1) - Ex_physical(out1)) + (Ex_mech(in2) - Ex_mech(out2))`. -/
theorem exergy_balance_all_above_ambient (hx : HeatExchangerState) (T0 : ℚ)
    (h1 : hx.in1.T > T0) (h2 : hx.in2.T > T0)
    (h3 : hx.out1.T > T0) (h4 : hx.out2.T > T0) :
    (exergy_balance hx T0).E_P = some (hx.out2.Ex_therm - hx.in2.Ex_therm) ∧
    (exergy_balance hx T0).E_F =
      hx.in1.Ex_physical - hx.out1.Ex_physical +
        (hx.in2.Ex_mech - hx.out2.Ex_mech) := by
  unfold exergy_balance
  rw [if_pos ⟨h1, h2, h3, h4⟩]
  exact ⟨rfl, rfl⟩

/-- Witness for C1: the spec scenario (hot 90 °C → 50 °C, cold 25 °C → 40 °C,
ambient 5 °C, all in kelvin) lands in case 1. -/
theorem exergy_balance_all_above_ambient_witness :
    (exergy_balance
        { in1 := ⟨363.15, 100, 20, 0, 120⟩
          in2 := ⟨298.15, 3, 7, 0, 10⟩
          out1 := ⟨323.15, 40, 18, 0, 58⟩
          out2 := ⟨313.15, 8, 6, 0, 14⟩ } 278.15).E_P = some (8 - 3) ∧
    (exergy_balance
        { in1 := ⟨363.15, 100, 20, 0, 120⟩
          in2 := ⟨298.15, 3, 7, 0, 10⟩
          out1 := ⟨323.15, 40, 18, 0, 58⟩
          out2 := ⟨313.15, 8, 6, 0, 14⟩ } 278.15).E_F = 120 - 58 + (7 - 6) :=
  exergy_balance_all_above_ambient
    { in1 := ⟨363.15, 100, 20, 0, 120⟩
      in2 := ⟨298.15, 3, 7, 0, 10⟩
      out1 := ⟨323.15, 40, 18, 0, 58⟩
      out2 := ⟨313.15, 8, 6, 0, 14⟩ } 278.15
    (by norm_num) (by norm_num) (by norm_num) (by norm_num)

/-- Claim C2: with hot inlet and outlet strictly above `T0` and cold inlet
and outlet at or below `T0`, `exergy_balance` sets `dissipative = true`,
`E_P = NaN` (embedded as `none`) and `E_F` to the sum of both sides'
physical-exergy drops. -/
theorem exergy_balance_dissipative (hx : HeatExchangerState) (T0 : ℚ)
    (h1 : hx.in1.T > T0) (h2 : hx.out1.T > T0)
    (h3 : hx.in2.T ≤ T0) (h4 : hx.out2.T ≤ T0) :
    (exergy_balance hx T0).dissipative = true ∧
    (exergy_balance hx T0).E_P = none ∧
    (exergy_balance hx T0).E_F =
      hx.in1.Ex_physical - hx.out1.Ex_physical +
        (hx.in2.Ex_physical - hx.out2.Ex_physical) := by
  unfold exergy_balance
  rw [if_neg (fun h => absurd h.2.1 (not_lt.mpr h3)),
    if_neg (fun h => absurd h.1 (not_le.mpr h1)),
    if_neg (fun h => absurd h.2.1 (not_lt.mpr h4)),
    if_neg (fun h => absurd h.2.2.1 (not_le.mpr h2)),
    if_pos ⟨h1, h2, h3, h4⟩]
  exact ⟨rfl, rfl, rfl⟩

/-- Witness for C2: hot side 80 °C → 60 °C, cold side 0 °C → 10 °C with
ambient 25 °C, i.e. hot terminals above and cold terminals below ambient. -/
theorem exergy_balance_dissipative_witness :
    (exergy_balance
        { in1 := ⟨353.15, 90, 30, 0, 120⟩
          in2 := ⟨273.15, 11, 4, 0, 15⟩
          out1 := ⟨333.15, 70, 28, 0, 98⟩
          out2 := ⟨283.15, 5, 3, 0, 8⟩ } 298.15).dissipative = true ∧
    (exergy_balance
        { in1 := ⟨353.15, 90, 30, 0, 120⟩
          in2 := ⟨273.15, 11, 4, 0, 15⟩
          out1 := ⟨333.15, 70, 28, 0, 98⟩
          out2 := ⟨283.15, 5, 3, 0, 8⟩ } 298.15).E_P = none ∧
    (exergy_balance
        { in1 := ⟨353.15, 90, 30, 0, 120⟩
          in2 := ⟨273.15, 11, 4, 0, 15⟩
          out1 := ⟨333.15, 70, 28, 0, 98⟩
          out2 := ⟨283.15, 5, 3, 0, 8⟩ } 298.15).E_F = 120 - 98 + (15 - 8) :=
  exergy_balance_dissipative
    { in1 := ⟨353.15, 90, 30, 0, 120⟩
      in2 := ⟨273.15, 11, 4, 0, 15⟩
      out1 := ⟨333.15, 70, 28, 0, 98⟩
      out2 := ⟨283.15, 5, 3, 0, 8⟩ } 298.15
    (by norm_num) (by norm_num) (by norm_num) (by norm_num)

/-- Every branch of the case ladder finishes through `finalizeBalance`
(base.py lines 1035-1040 run after the ladder). -/
theorem exergy_balance_eq_finalize (hx : HeatExchangerState) (T0 : ℚ) :
    ∃ eP eF d, exergy_balance hx T0 = finalizeBalance eP eF d := by
  unfold exergy_balance
  repeat' split
  all_goals exact ⟨_, _, _, rfl⟩

/-- Claim C6: after `exergy_balance`, in every temperature regime
`E_D = E_F - E_P` whenever `E_P` is defined, `E_D = E_F` when `E_P` is NaN
(so `E_D` is defined whenever `E_F` is, which in this embedding is always),
and `epsilon = E_P / E_F`. -/
theorem exergy_balance_ED_epsilon_invariant (hx : HeatExchangerState) (T0 : ℚ) :
    (∀ p, (exergy_balance hx T0).E_P = some p →
      (exergy_balance hx T0).E_D = (exergy_balance hx T0).E_F - p) ∧
    ((exergy_balance hx T0).E_P = none →
      (exergy_balance hx T0).E_D = (exergy_balance hx T0).E_F) ∧
    (exergy_balance hx T0).epsilon =
      (exergy_balance hx T0).E_P.map
        (fun p => p / (exergy_balance hx T0).E_F) := by
  obtain ⟨eP, eF, d, h⟩ := exergy_balance_eq_finalize hx T0
  rw [h]
  refine ⟨fun p hp => ?_, fun hp => ?_, ?_⟩
  · cases eP with
    | none => exact absurd hp (by simp [finalizeBalance])
    | some q =>
      have : q = p := by simpa [finalizeBalance] using hp
      simp [finalizeBalance, this]
  · cases eP with
    | none => simp [finalizeBalance]
    | some q => exact absurd hp (by simp [finalizeBalance])
  · cases eP with
    | none => simp [finalizeBalance, calc_epsilon]
    | some q => simp [finalizeBalance, calc_epsilon]

/-- Witness for C6: on the case-1 instance the product is `some 5` and the
theorem yields `E_D = E_F - 5`. -/
theorem exergy_balance_ED_epsilon_invariant_witness :
    (exergy_balance
        { in1 := ⟨363.15, 100, 20, 0, 120⟩
          in2 := ⟨298.15, 3, 7, 0, 10⟩
          out1 := ⟨323.15, 40, 18, 0, 58⟩
          out2 := ⟨313.15, 8, 6, 0, 14⟩ } 278.15).E_D =
      (exergy_balance
        { in1 := ⟨363.15, 100, 20, 0, 120⟩
          in2 := ⟨298.15, 3, 7, 0, 10⟩
          out1 := ⟨323.15, 40, 18, 0, 58⟩
          out2 := ⟨313.15, 8, 6, 0, 14⟩ } 278.15).E_F - 5 :=
  (exergy_balance_ED_epsilon_invariant
    { in1 := ⟨363.15, 100, 20, 0, 120⟩
      in2 := ⟨298.15, 3, 7, 0, 10⟩
      out1 := ⟨323.15, 40, 18, 0, 58⟩
      out2 := ⟨313.15, 8, 6, 0, 14⟩ } 278.15).1 5
    (by norm_num [exergy_balance, finalizeBalance])

/-- Claim C3: `calculate_td_log` computes, after the safeguard adjustments,
`ttd_u = T_i1 - T_o2` and `ttd_l = T_o1 - T_i2`, returns `ttd_l` when the
two are equal and `(ttd_l - ttd_u)/ln(ttd_l/ttd_u)` otherwise. -/
theorem calculate_td_log_cases (a b c d : ℝ) :
    ttd_u (adjustTemps a b c d) =
      (adjustTemps a b c d).T_i1 - (adjustTemps a b c d).T_o2 ∧
    ttd_l (adjustTemps a b c d) =
      (adjustTemps a b c d).T_o1 - (adjustTemps a b c d).T_i2 ∧
    (ttd_u (adjustTemps a b c d) = ttd_l (adjustTemps a b c d) →
      calculate_td_log a b c d = ttd_l (adjustTemps a b c d)) ∧
    (ttd_u (adjustTemps a b c d) ≠ ttd_l (adjustTemps a b c d) →
      calculate_td_log a b c d =
        (ttd_l (adjustTemps a b c d) - ttd_u (adjustTemps a b c d)) /
          Real.log
            (ttd_l (adjustTemps a b c d) / ttd_u (adjustTemps a b c d))) := by
  refine ⟨rfl, rfl, fun h => ?_, fun h => ?_⟩
  · unfold calculate_td_log
    rw [if_pos h]
  · unfold calculate_td_log
    rw [if_neg h]

/-- Witness for C3: hot 90 °C → 50 °C against cold 25 °C → 40 °C (in plain
degree values), where no safeguard fires, `ttd_u = 50 ≠ 25 = ttd_l`, and the
logarithmic-mean branch is taken. -/
theorem calculate_td_log_cases_witness :
    ttd_u (adjustTemps 90 25 50 40) ≠ ttd_l (adjustTemps 90 25 50 40) ∧
    calculate_td_log 90 25 50 40 =
      (ttd_l (adjustTemps 90 25 50 40) - ttd_u (adjustTemps 90 25 50 40)) /
        Real.log
          (ttd_l (adjustTemps 90 25 50 40) / ttd_u (adjustTemps 90 25 50 40)) := by
  have hne : ttd_u (adjustTemps 90 25 50 40) ≠ ttd_l (adjustTemps 90 25 50 40) := by
    norm_num [adjustTemps, adjust1, adjust2, adjust3, adjust4, ttd_u, ttd_l]
  exact ⟨hne, (calculate_td_log_cases 90 25 50 40).2.2.2 hne⟩

/-- After the first safeguard the hot inlet is strictly above the cold
outlet. -/
theorem adjust1_lt (t : AdjTemps) : (adjust1 t).T_o2 < (adjust1 t).T_i1 := by
  unfold adjust1
  split
  · next h => simp only; linarith [t.T_o2]
  · next h => exact not_le.mp h

/-- The second safeguard is the identity once the hot inlet exceeds the
cold outlet. -/
theorem adjust2_of_lt (t : AdjTemps) (h : t.T_o2 < t.T_i1) : adjust2 t = t := by
  unfold adjust2
  rw [if_neg (not_le.mpr h)]

/-- The third safeguard is the identity once the hot inlet exceeds the cold
outlet. -/
theorem adjust3_of_lt (t : AdjTemps) (h : t.T_o2 < t.T_i1) : adjust3 t = t := by
  unfold adjust3
  rw [if_neg (not_le.mpr h)]

/-- The fourth safeguard leaves the upper terminal pair unchanged. -/
theorem adjust4_upper (t : AdjTemps) :
    (adjust4 t).T_i1 = t.T_i1 ∧ (adjust4 t).T_o2 = t.T_o2 := by
  unfold adjust4
  split <;> exact ⟨rfl, rfl⟩

/-- The fourth safeguard makes the lower terminal difference strictly
positive. -/
theorem adjust4_l_pos (t : AdjTemps) : 0 < ttd_l (adjust4 t) := by
  unfold adjust4 ttd_l
  split
  · next h => simp only; linarith [t.T_o1]
  · next h => have := not_le.mp h; linarith

/-- Claim C4: for every combination of four real input temperatures the
safeguard block leaves both terminal differences strictly positive, so the
logarithm in `calculate_td_log` is applied to a positive argument and, in
the unequal case, is nonzero — the function never divides by zero. -/
theorem calculate_td_log_total (a b c d : ℝ) :
    0 < ttd_u (adjustTemps a b c d) ∧
    0 < ttd_l (adjustTemps a b c d) ∧
    (ttd_u (adjustTemps a b c d) ≠ ttd_l (adjustTemps a b c d) →
      Real.log
        (ttd_l (adjustTemps a b c d) / ttd_u (adjustTemps a b c d)) ≠ 0) := by
  have h1 : (adjust1 ⟨a, b, c, d⟩).T_o2 < (adjust1 ⟨a, b, c, d⟩).T_i1 :=
    adjust1_lt ⟨a, b, c, d⟩
  have h23 : adjustTemps a b c d = adjust4 (adjust1 ⟨a, b, c, d⟩) := by
    unfold adjustTemps
    rw [adjust2_of_lt _ h1, adjust3_of_lt _ h1]
  have hu : 0 < ttd_u (adjustTemps a b c d) := by
    rw [h23]
    unfold ttd_u
    rw [(adjust4_upper (adjust1 ⟨a, b, c, d⟩)).1,
      (adjust4_upper (adjust1 ⟨a, b, c, d⟩)).2]
    linarith
  have hl : 0 < ttd_l (adjustTemps a b c d) := by
    rw [h23]; exact adjust4_l_pos _
  refine ⟨hu, hl, fun hne hlog => ?_⟩
  have hq : 0 < ttd_l (adjustTemps a b c d) / ttd_u (adjustTemps a b c d) :=
    div_pos hl hu
  have hone : ttd_l (adjustTemps a b c d) / ttd_u (adjustTemps a b c d) ≠ 1 :=
    fun heq => hne ((div_eq_one_iff_eq (ne_of_gt hu)).mp heq).symm
  exact Real.log_ne_zero_of_pos_of_ne_one hq hone hlog

/-- Witness for C4: at temperatures (90, 25, 50, 40) the adjusted terminal
differences are 50 and 25 and the logarithm is nonzero. -/
theorem calculate_td_log_total_witness :
    0 < ttd_u (adjustTemps 90 25 50 40) ∧
    0 < ttd_l (adjustTemps 90 25 50 40) ∧
    Real.log (ttd_l (adjustTemps 90 25 50 40) / ttd_u (adjustTemps 90 25 50 40)) ≠ 0 :=
  ⟨(calculate_td_log_total 90 25 50 40).1,
   (calculate_td_log_total 90 25 50 40).2.1,
   (calculate_td_log_total 90 25 50 40).2.2
     (by norm_num [adjustTemps, adjust1, adjust2, adjust3, adjust4, ttd_u, ttd_l])⟩

/-- Claim C5: the characteristic-kA residual equals
`m_in1 * (h_out1 - h_in1) + kA_design * f_kA * td_log` with
`f_kA = 2 / (1/f1 + 1/f2)` the harmonic-mean combination of the two side
characteristic evaluations and `td_log` the value of `calculate_td_log`. -/
theorem kA_char_func_formula
    (m h_in1 h_out1 kA_design fkA1 fkA2 T_i1 T_i2 T_o1 T_o2 : ℝ) :
    kA_char_func m h_in1 h_out1 kA_design fkA1 fkA2 T_i1 T_i2 T_o1 T_o2 =
      m * (h_out1 - h_in1) +
        kA_design * (2 / (1 / fkA1 + 1 / fkA2)) *
          calculate_td_log T_i1 T_i2 T_o1 T_o2 := rfl

/-- The bus-membership loop raises exactly when the count of busses holding
the component, on top of the accumulator, reaches two (the accumulator
being either zero or already positive). -/
theorem evaluate_busses_loop_error (cp : ℕ) (l : List (List ℕ)) (n : ℕ) :
    raisesError (evaluate_busses_loop cp l n) = true ↔
      (if n = 0 then 1 else 0) < l.countP (fun b => decide (cp ∈ b)) := by
  induction l generalizing n with
  | nil => simp [evaluate_busses_loop, raisesError]
  | cons b bs ih =>
    by_cases hb : cp ∈ b
    · by_cases hn : 0 < n
      · have hn0 : n ≠ 0 := Nat.pos_iff_ne_zero.mp hn
        simp [evaluate_busses_loop, hb, hn, raisesError, List.countP_cons, hn0]
      · have hn0 : n = 0 := Nat.eq_zero_of_not_pos hn
        subst hn0
        rw [evaluate_busses_loop]
        simp only [hb, if_true, Nat.lt_irrefl 0, if_false, ih 1]
        simp [List.countP_cons, hb]
    · rw [evaluate_busses_loop]
      simp only [hb, if_false, ih n]
      simp [List.countP_cons, hb]

/-- Claim C9: `evaluate_busses` raises a `TESPyNetworkError` exactly when
the component lies on at least two of the busses passed to the analysis
(`E_F`, `E_P`, `internal_busses`, `E_L`); on at most one bus it never
raises. -/
theorem evaluate_busses_multi_bus (E_F E_P internal_busses E_L : List (List ℕ))
    (cp : ℕ) :
    raisesError (evaluate_busses E_F E_P internal_busses E_L cp) = true ↔
      2 ≤ (E_F ++ E_P ++ internal_busses ++ E_L).countP
            (fun b => decide (cp ∈ b)) := by
  rw [evaluate_busses, evaluate_busses_loop_error]
  simp [List.countP_append]
  omega

/-- Claim C10: the closure check at the end of `analyse` flags a diagnostic
message exactly when the residual `|E_F - E_P - E_D - E_L|` reaches
`err ** 0.5 = 1e-3`; the network data is returned unchanged either way and
no exception is raised (`analyse_closure` is a total function). -/
theorem analyse_closure_spec (eF eP eD eL : ℚ) :
    ((analyse_closure eF eP eD eL).warning = true ↔
      sqrt_err ≤ closure_residual eF eP eD eL) ∧
    (analyse_closure eF eP eD eL).E_F = eF ∧
    (analyse_closure eF eP eD eL).E_P = eP ∧
    (analyse_closure eF eP eD eL).E_D = eD ∧
    (analyse_closure eF eP eD eL).E_L = eL ∧
    sqrt_err * sqrt_err = err := by
  refine ⟨?_, rfl, rfl, rfl, rfl, by norm_num [sqrt_err, err]⟩
  simp [analyse_closure, ge_iff_le]

/-- Reading the cell just written. -/
theorem mset_same (M : CostMatrix) (r c : ℕ) (v : ℚ) : mset M r c v r c = v := by
  unfold mset
  rw [if_pos ⟨rfl, rfl⟩]

/-- A write leaves every other row unchanged. -/
theorem mset_ne_row (M : CostMatrix) (r c : ℕ) (v : ℚ) (r2 c2 : ℕ)
    (h : r2 ≠ r) : mset M r c v r2 c2 = M r2 c2 := by
  unfold mset
  rw [if_neg (fun hc => h hc.1)]

/-- A write leaves every other column unchanged. -/
theorem mset_ne_col (M : CostMatrix) (r c : ℕ) (v : ℚ) (r2 c2 : ℕ)
    (h : c2 ≠ c) : mset M r c v r2 c2 = M r2 c2 := by
  unfold mset
  rw [if_neg (fun hc => h hc.2)]

/-- Reading the cell just incremented. -/
theorem madd_same (M : CostMatrix) (r c : ℕ) (v : ℚ) :
    madd M r c v r c = M r c + v := mset_same M r c _

/-- An increment leaves every other row unchanged. -/
theorem madd_ne_row (M : CostMatrix) (r c : ℕ) (v : ℚ) (r2 c2 : ℕ)
    (h : r2 ≠ r) : madd M r c v r2 c2 = M r2 c2 := mset_ne_row M r c _ r2 c2 h

/-- An increment leaves every other column unchanged. -/
theorem madd_ne_col (M : CostMatrix) (r c : ℕ) (v : ℚ) (r2 c2 : ℕ)
    (h : c2 ≠ c) : madd M r c v r2 c2 = M r2 c2 := mset_ne_col M r c _ r2 c2 h

/-- Reading the cell just written in a vector. -/
theorem vset_same (V : CostVector) (r : ℕ) (v : ℚ) : vset V r v r = v := by
  unfold vset
  rw [if_pos rfl]

/-- Row-targeted increments leave other rows unchanged. -/
theorem applyAdds_ne_row (r : ℕ) (ws : List (ℕ × ℚ)) (M : CostMatrix)
    (r2 c2 : ℕ) (h : r2 ≠ r) : applyAdds r ws M r2 c2 = M r2 c2 := by
  induction ws generalizing M with
  | nil => rfl
  | cons p ps ih =>
    obtain ⟨c, v⟩ := p
    rw [applyAdds, ih, madd_ne_row _ _ _ _ _ _ h]

/-- Increments on other columns leave a column unchanged. -/
theorem applyAdds_ne_col (r : ℕ) (ws : List (ℕ × ℚ)) (M : CostMatrix)
    (r2 c2 : ℕ) (h : ∀ p ∈ ws, c2 ≠ p.1) :
    applyAdds r ws M r2 c2 = M r2 c2 := by
  induction ws generalizing M with
  | nil => rfl
  | cons p ps ih =>
    obtain ⟨c, v⟩ := p
    rw [applyAdds, ih _ (fun q hq => h q (List.mem_cons_of_mem _ hq)),
      madd_ne_col _ _ _ _ _ _ (h (c, v) (List.mem_cons_self _ _))]

/-- With pairwise-distinct target columns, a listed increment lands exactly
once. -/
theorem applyAdds_mem (r : ℕ) (ws : List (ℕ × ℚ)) (M : CostMatrix)
    (p : ℕ × ℚ) (hmem : p ∈ ws) (hnd : (ws.map Prod.fst).Nodup) :
    applyAdds r ws M r p.1 = M r p.1 + p.2 := by
  induction ws generalizing M with
  | nil => cases hmem
  | cons q qs ih =>
    rw [List.map_cons, List.nodup_cons] at hnd
    rcases List.mem_cons.mp hmem with heq | htail
    · subst heq
      obtain ⟨c, v⟩ := p
      rw [applyAdds, applyAdds_ne_col _ _ _ _ _
          (fun q2 hq2 hcq => hnd.1 (by rw [hcq]; exact List.mem_map_of_mem _ hq2))]
      exact madd_same M r c v
    · have hq1 : p.1 ≠ q.1 := fun hcc =>
        hnd.1 (by rw [← hcc]; exact List.mem_map_of_mem _ htail)
      obtain ⟨c1, v1⟩ := q
      rw [applyAdds, ih _ htail hnd.2, madd_ne_col _ _ _ _ _ _ hq1]

/-- `servingStep` written as its column/increment list followed by the `Z`
column write. -/
theorem servingStep_eq_fold (hx : CostHX) (n : ℕ) (M : CostMatrix)
    (comp : ServingComp) :
    servingStep hx n M comp =
      mset (applyAdds comp.exergy_cost_line (writeCols hx n) M)
        comp.exergy_cost_line hx.Z_col (1 / (n : ℚ)) := rfl

/-- One serving-loop iteration only writes its own cost row. -/
theorem servingStep_ne_row (hx : CostHX) (n : ℕ) (M : CostMatrix)
    (comp : ServingComp) (r2 c2 : ℕ) (h : r2 ≠ comp.exergy_cost_line) :
    servingStep hx n M comp r2 c2 = M r2 c2 := by
  rw [servingStep_eq_fold, mset_ne_row _ _ _ _ _ _ h,
    applyAdds_ne_row _ _ _ _ _ h]

/-- The serving loop leaves rows of non-serving components unchanged. -/
theorem servingLoop_ne_row (hx : CostHX) (n : ℕ) (l : List ServingComp)
    (M : CostMatrix) (r2 c2 : ℕ)
    (h : ∀ q ∈ l, r2 ≠ q.exergy_cost_line) :
    servingLoop hx n l M r2 c2 = M r2 c2 := by
  induction l generalizing M with
  | nil => rfl
  | cons a as ih =>
    rw [servingLoop,
      ih (servingStep hx n M a) (fun q hq => h q (List.mem_cons_of_mem a hq)),
      servingStep_ne_row hx n M a r2 c2 (h a (List.mem_cons_self a as))]

/-- On a serving component's own row, the loop acts as that component's
single iteration over a matrix that agrees with the input on that row. -/
theorem servingLoop_row (hx : CostHX) (n : ℕ) (l : List ServingComp)
    (M : CostMatrix) (comp : ServingComp) (hmem : comp ∈ l)
    (hnd : (l.map ServingComp.exergy_cost_line).Nodup) :
    ∃ M2 : CostMatrix,
      (∀ c2, M2 comp.exergy_cost_line c2 = M comp.exergy_cost_line c2) ∧
      ∀ c2, servingLoop hx n l M comp.exergy_cost_line c2 =
        servingStep hx n M2 comp comp.exergy_cost_line c2 := by
  induction l generalizing M with
  | nil => cases hmem
  | cons a as ih =>
    rw [List.map_cons, List.nodup_cons] at hnd
    by_cases ha : comp = a
    · subst ha
      refine ⟨M, fun c2 => rfl, fun c2 => ?_⟩
      rw [servingLoop]
      exact servingLoop_ne_row hx n as (servingStep hx n M comp) _ c2
        (fun q hq hrq => hnd.1 (by rw [hrq]; exact List.mem_map_of_mem _ hq))
    · have hmem2 : comp ∈ as := by
        rcases List.mem_cons.mp hmem with h | h
        · exact absurd h ha
        · exact h
      have hline : comp.exergy_cost_line ≠ a.exergy_cost_line := fun he =>
        hnd.1 (by rw [← he]; exact List.mem_map_of_mem _ hmem2)
      obtain ⟨M2, hag, hval⟩ := ih (servingStep hx n M a) hmem2 hnd.2
      exact ⟨M2, fun c2 => by
        rw [hag c2, servingStep_ne_row _ _ _ _ _ _ hline], by
        rw [servingLoop]; exact hval⟩

/-- Row `counter+0` leaves other rows unchanged. -/
theorem dbTherm1_ne_row (hx : CostHX) (counter : ℕ) (M : CostMatrix)
    (r c : ℕ) (h : r ≠ counter + 0) : (dbTherm1 hx counter M).1 r c = M r c := by
  have h0 : r ≠ counter := by omega
  unfold dbTherm1
  split_ifs <;> simp [mset, h, h0]

/-- Row `counter+1` leaves other rows unchanged. -/
theorem dbTherm2_ne_row (hx : CostHX) (counter : ℕ) (M : CostMatrix)
    (r c : ℕ) (h : r ≠ counter + 1) : (dbTherm2 hx counter M).1 r c = M r c := by
  unfold dbTherm2
  split_ifs <;> simp [mset, h]

/-- Row `counter+2` leaves other rows unchanged. -/
theorem dbMech1_ne_row (hx : CostHX) (counter : ℕ) (M : CostMatrix)
    (r c : ℕ) (h : r ≠ counter + 2) : (dbMech1 hx counter M).1 r c = M r c := by
  unfold dbMech1
  split_ifs <;> simp [mset, h]

/-- Row `counter+3` leaves other rows unchanged. -/
theorem dbMech2_ne_row (hx : CostHX) (counter : ℕ) (M : CostMatrix)
    (r c : ℕ) (h : r ≠ counter + 3) : (dbMech2 hx counter M).1 r c = M r c := by
  unfold dbMech2
  split_ifs <;> simp [mset, h]

/-- Row `counter+4` leaves other rows unchanged. -/
theorem dbChem1_ne_row (hx : CostHX) (counter : ℕ) (M : CostMatrix)
    (r c : ℕ) (h : r ≠ counter + 4) : (dbChem1 hx counter M).1 r c = M r c := by
  unfold dbChem1
  simp [mset, h]

/-- Row `counter+5` leaves other rows unchanged. -/
theorem dbChem2_ne_row (hx : CostHX) (counter : ℕ) (M : CostMatrix)
    (r c : ℕ) (h : r ≠ counter + 5) : (dbChem2 hx counter M).1 r c = M r c := by
  unfold dbChem2
  simp [mset, h]

/-- The six working-fluid rows of `dissipative_balance` leave every row
other than `counter+0 … counter+5` unchanged. -/
theorem dbRows_ne_row (hx : CostHX) (counter : ℕ) (M : CostMatrix) (r c : ℕ)
    (h : ∀ i, i < 6 → r ≠ counter + i) :
    (dbChem2 hx counter (dbChem1 hx counter (dbMech2 hx counter (dbMech1 hx
      counter (dbTherm2 hx counter (dbTherm1 hx counter
        M).1).1).1).1).1).1 r c = M r c := by
  rw [dbChem2_ne_row _ _ _ _ _ (h 5 (by norm_num)),
    dbChem1_ne_row _ _ _ _ _ (h 4 (by norm_num)),
    dbMech2_ne_row _ _ _ _ _ (h 3 (by norm_num)),
    dbMech1_ne_row _ _ _ _ _ (h 2 (by norm_num)),
    dbTherm2_ne_row _ _ _ _ _ (h 1 (by norm_num)),
    dbTherm1_ne_row _ _ _ _ _ (h 0 (by norm_num))]

/-- `writeCols`' target columns are exactly `dissCols`. -/
theorem writeCols_map_fst (hx : CostHX) (n : ℕ) :
    (writeCols hx n).map Prod.fst = dissCols hx := rfl

/-- Claim C7: for every serving component (cost rows pairwise distinct and
away from the auxiliary rows, columns pairwise distinct), the coefficients
added to its cost row are `+1/len(serving_components)` on each inlet
thermal/mechanical/chemical column and `-1/len` on each outlet column, the
`Z` column is set to `1/len`, and the dissipative component's own `Z` cost
is a separate row `counter+6` with coefficient `1` and right-hand side
`Z_costs`. -/
theorem dissipative_balance_serving_equal_split (hx : CostHX)
    (M0 : CostMatrix) (V0 : CostVector) (counter : ℕ) (comp : ServingComp)
    (hmem : comp ∈ hx.serving_components)
    (hnd : (hx.serving_components.map ServingComp.exergy_cost_line).Nodup)
    (hrow : ∀ i, i < 7 → comp.exergy_cost_line ≠ counter + i)
    (hcnd : (dissCols hx).Nodup)
    (hz : hx.Z_col ∉ dissCols hx) :
    (∀ p ∈ writeCols hx hx.serving_components.length,
      (dissipative_balance hx M0 V0 counter).M comp.exergy_cost_line p.1 =
        M0 comp.exergy_cost_line p.1 + p.2) ∧
    (dissipative_balance hx M0 V0 counter).M comp.exergy_cost_line hx.Z_col =
      1 / (hx.serving_components.length : ℚ) ∧
    (dissipative_balance hx M0 V0 counter).M (counter + 6) hx.Z_col = 1 ∧
    (dissipative_balance hx M0 V0 counter).V (counter + 6) = hx.Z_costs := by
  have hn6 : comp.exergy_cost_line ≠ counter + 6 := hrow 6 (by norm_num)
  have hMdef : (dissipative_balance hx M0 V0 counter).M =
      mset (servingLoop hx hx.serving_components.length hx.serving_components
        (dbChem2 hx counter (dbChem1 hx counter (dbMech2 hx counter (dbMech1
          hx counter (dbTherm2 hx counter (dbTherm1 hx counter
            M0).1).1).1).1).1).1)
        (counter + 6) hx.Z_col 1 := rfl
  have hVdef : (dissipative_balance hx M0 V0 counter).V =
      vset (vset (vset (vset (vset (vset (vset V0
        (counter+0) 0) (counter+1) 0) (counter+2) 0)
        (counter+3) 0) (counter+4) 0) (counter+5) 0)
        (counter + 6) hx.Z_costs := rfl
  obtain ⟨M2, hag, hval⟩ := servingLoop_row hx hx.serving_components.length
    hx.serving_components
    (dbChem2 hx counter (dbChem1 hx counter (dbMech2 hx counter (dbMech1
      hx counter (dbTherm2 hx counter (dbTherm1 hx counter
        M0).1).1).1).1).1).1
    comp hmem hnd
  refine ⟨fun p hp => ?_, ?_, ?_, ?_⟩
  · have hp1 : p.1 ∈ dissCols hx := by
      rw [← writeCols_map_fst hx hx.serving_components.length]
      exact List.mem_map_of_mem _ hp
    have hp1z : p.1 ≠ hx.Z_col := fun he => hz (he ▸ hp1)
    rw [hMdef, mset_ne_row _ _ _ _ _ _ hn6, hval p.1, servingStep_eq_fold,
      mset_ne_col _ _ _ _ _ _ hp1z,
      applyAdds_mem _ _ _ p hp
        (by rw [writeCols_map_fst hx hx.serving_components.length]; exact hcnd),
      hag p.1,
      dbRows_ne_row hx counter M0 _ _ (fun i hi => hrow i (by omega))]
  · rw [hMdef, mset_ne_row _ _ _ _ _ _ hn6, hval hx.Z_col,
      servingStep_eq_fold, mset_same]
  · rw [hMdef, mset_same]
  · rw [hVdef, vset_same]

/-- Witness for C7: a concrete dissipative exchanger with two serving
components on rows 20 and 21 and columns 0-11, `Z` column 12, applied to
the zero matrix at `counter = 0`; the increment on the first serving
component's row at the hot-inlet thermal column is `1/2`. -/
theorem dissipative_balance_serving_equal_split_witness :
    (dissipative_balance
        { in1 := ⟨2, 3, 4, 0, 4, 8⟩
          in2 := ⟨5, 6, 7, 1, 5, 9⟩
          out1 := ⟨1, 2, 3, 2, 6, 10⟩
          out2 := ⟨4, 5, 6, 3, 7, 11⟩
          Z_col := 12
          Z_costs := 250
          serving_components := [⟨20⟩, ⟨21⟩] }
        (fun _ _ => 0) (fun _ => 0) 0).M 20 0 = 0 + 1 / 2 ∧
    (dissipative_balance
        { in1 := ⟨2, 3, 4, 0, 4, 8⟩
          in2 := ⟨5, 6, 7, 1, 5, 9⟩
          out1 := ⟨1, 2, 3, 2, 6, 10⟩
          out2 := ⟨4, 5, 6, 3, 7, 11⟩
          Z_col := 12
          Z_costs := 250
          serving_components := [⟨20⟩, ⟨21⟩] }
        (fun _ _ => 0) (fun _ => 0) 0).M 20 12 = 1 / 2 ∧
    (dissipative_balance
        { in1 := ⟨2, 3, 4, 0, 4, 8⟩
          in2 := ⟨5, 6, 7, 1, 5, 9⟩
          out1 := ⟨1, 2, 3, 2, 6, 10⟩
          out2 := ⟨4, 5, 6, 3, 7, 11⟩
          Z_col := 12
          Z_costs := 250
          serving_components := [⟨20⟩, ⟨21⟩] }
        (fun _ _ => 0) (fun _ => 0) 0).M 6 12 = 1 ∧
    (dissipative_balance
        { in1 := ⟨2, 3, 4, 0, 4, 8⟩
          in2 := ⟨5, 6, 7, 1, 5, 9⟩
          out1 := ⟨1, 2, 3, 2, 6, 10⟩
          out2 := ⟨4, 5, 6, 3, 7, 11⟩
          Z_col := 12
          Z_costs := 250
          serving_components := [⟨20⟩, ⟨21⟩] }
        (fun _ _ => 0) (fun _ => 0) 0).V 6 = 250 := by
  obtain ⟨h1, h2, h3, h4⟩ := dissipative_balance_serving_equal_split
    { in1 := ⟨2, 3, 4, 0, 4, 8⟩
      in2 := ⟨5, 6, 7, 1, 5, 9⟩
      out1 := ⟨1, 2, 3, 2, 6, 10⟩
      out2 := ⟨4, 5, 6, 3, 7, 11⟩
      Z_col := 12
      Z_costs := 250
      serving_components := [⟨20⟩, ⟨21⟩] }
    (fun _ _ => 0) (fun _ => 0) 0 ⟨20⟩
    (by decide) (by decide)
    (by intro i hi; show (20 : ℕ) ≠ 0 + i; omega)
    (by decide) (by decide)
  exact ⟨h1 (0, 1 / 2) (by simp [writeCols]), h2, h3, h4⟩

/-- Claim C8 evaluated at a failing input: the `therm2` row of
`dissipative_balance` guards stream 2's thermal exergies but divides by
stream 1's; with `Ex_therm = 0` on stream 1 and `Ex_therm = 1` on stream 2
a division by zero is executed (Python raises `ZeroDivisionError`). -/
theorem dissipative_balance_division_by_zero :
    (dissipative_balance
        { in1 := ⟨0, 1, 1, 0, 4, 8⟩
          in2 := ⟨1, 1, 1, 1, 5, 9⟩
          out1 := ⟨0, 1, 1, 2, 6, 10⟩
          out2 := ⟨1, 1, 1, 3, 7, 11⟩
          Z_col := 12
          Z_costs := 0
          serving_components := [⟨20⟩] }
        (fun _ _ => 0) (fun _ => 0) 0).divByZero = true := by
  norm_num [dissipative_balance, dbTherm1, dbTherm2, dbMech1, dbMech2,
    dbChem1, dbChem2]

end Tespy
